import Mathlib

/-!
Shallow embedding of `watchtower/src/main.rs` (a cluster-health monitor).

The monitor loop fetches a cluster snapshot, runs a fixed sequence of health
checks producing an ordered list of `CheckFailure`s, selects only the first
failure, and reconciles it against the last notification message to decide
whether to notify.

Modelling conventions:
- `u64` values (transaction counts, stake, lamports) are `Nat`, and every
  `u64` arithmetic step of the stake computation (the stake sums, the total,
  and the product `total_current_stake * 100` at main.rs:163) is reduced
  modulo `2^64`, the wrapping semantics of the release profile under which
  the binary ships (a debug build would abort on overflow instead); the
  wrap is observable: a current stake of `2*10^17` lamports wraps the
  product and changes the computed percent.
- The blockhash (`solana_sdk::hash::Hash`, an opaque 32-byte value compared
  only for equality, with `Hash::default()` the all-zero hash) is a `Nat`
  with `0` as the default.
- `Pubkey` (opaque 32-byte identity, compared only for equality, with
  `Pubkey::default()` all zeros) is a wrapped `Nat` with `0` as the default.
- The external RPC client is a record of pure functions (`RpcEnv`); fallible
  calls return `Except String _`.
- Rust's `u64` division panics when the divisor is zero
  (`total_current_stake * 100 / total_stake` at main.rs:163); the evaluation
  of one cycle therefore returns an `Option`, with `none` modelling the
  abort of the process.
- `lamports_to_sol` converts lamports to an `f64` SOL amount
  (`lamports / 10^9`); the comparison `balance < 1.0` in the source is exact
  at the lamport level and equals `lamports < 1000000000`, so balances stay
  in lamports here.  The `f64` decimal rendering inside the balance-failure
  message is abstracted by an injective rendering of the lamport count.
-/

namespace Watchtower

/-- Opaque validator identity (`solana_sdk::pubkey::Pubkey`), compared only
for equality. -/
structure Pubkey where
  bytes : Nat
deriving DecidableEq, Repr

/-- `Pubkey::default()`: the all-zeros public key. -/
def Pubkey.defaultKey : Pubkey := ⟨0⟩

/-- One entry of `RpcVoteAccountStatus` (`RpcVoteAccountInfo`): the node
identity rendered as a base58 string, and its activated stake in lamports. -/
structure VoteAccountInfo where
  node_pubkey : String
  activated_stake : Nat
deriving DecidableEq, Repr

/-- `RpcVoteAccountStatus`: the current and delinquent validator lists. -/
structure VoteAccountStatus where
  current : List VoteAccountInfo
  delinquent : List VoteAccountInfo
deriving DecidableEq, Repr

/-- The result of `get_cluster_info`: transaction count, recent blockhash and
vote accounts, fetched together at the top of each cycle. -/
structure ClusterInfo where
  transaction_count : Nat
  recent_blockhash : Nat
  vote_accounts : VoteAccountStatus
deriving DecidableEq, Repr

/-- The fields of `Config` that the evaluation loop reads (URL and interval
only steer I/O plumbing and are omitted). -/
structure Config where
  validator_identity_pubkeys : List String
  no_duplicate_notifications : Bool
  monitor_active_stake : Bool
deriving DecidableEq, Repr

/-- The three mutable loop variables of `main`:
`last_transaction_count`, `last_recent_blockhash`, `last_notification_msg`. -/
structure MonitorState where
  last_transaction_count : Nat
  last_recent_blockhash : Nat
  last_notification_msg : String
deriving DecidableEq, Repr

/-- A check failure: `(test name, error message)` as pushed onto `failures`. -/
abbrev CheckFailure := String × String

/-- The external RPC client operations used inside the evaluation of one
snapshot: base58 pubkey parsing (`Pubkey::from_str`) and `get_balance`. -/
structure RpcEnv where
  parsePubkey : String → Option Pubkey
  get_balance : Pubkey → Except String Nat

/-- Lamports per SOL (`solana_sdk::native_token::LAMPORTS_PER_SOL`). -/
def lamportsPerSol : Nat := 1000000000

/-- Rendering of `lamports_to_sol lamports` inside the balance message.
The source formats the `f64` SOL amount; only injectivity in the lamport
count matters to the claims, so the rendering is abstracted to the decimal
lamport count. -/
def solDisplay (lamports : Nat) : String := toString lamports

/-- `iter().fold(0, |acc, va| acc + va.activated_stake)`: each `u64`
addition wraps modulo `2^64`. -/
def sumActivatedStake (l : List VoteAccountInfo) : Nat :=
  l.foldl (fun acc va => (acc + va.activated_stake) % 2 ^ 64) 0

/-- `total_stake = total_current_stake + total_delinquent_stake`
(main.rs:162), a `u64` addition wrapping modulo `2^64`. -/
def totalStake (va : VoteAccountStatus) : Nat :=
  (sumActivatedStake va.current + sumActivatedStake va.delinquent) % 2 ^ 64

/-- `current_stake_percent = total_current_stake * 100 / total_stake`
(main.rs:163): the `u64` product `total_current_stake * 100` wraps modulo
`2^64` before the truncating `u64` division. -/
def currentStakePercent (va : VoteAccountStatus) : Nat :=
  sumActivatedStake va.current * 100 % 2 ^ 64 / totalStake va

/-- Message of the transaction-count failure (main.rs:177). -/
def txFailMessage (info : ClusterInfo) (st : MonitorState) : String :=
  "Transaction count is not advancing: " ++ toString info.transaction_count ++
    " <= " ++ toString st.last_transaction_count

/-- Check 1 (main.rs:172-182): if the transaction count advanced, update the
ratchet; otherwise push a `transaction-count` failure.  Returns the failures
this check contributes and the new `last_transaction_count`. -/
def txCheck (info : ClusterInfo) (st : MonitorState) :
    List CheckFailure × Nat :=
  if info.transaction_count > st.last_transaction_count then
    ([], info.transaction_count)
  else
    ([("transaction-count", txFailMessage info st)], st.last_transaction_count)

/-- Message of the recent-blockhash failure (main.rs:189). -/
def hashFailMessage (info : ClusterInfo) : String :=
  "Unable to get new blockhash: " ++ toString info.recent_blockhash

/-- Check 2 (main.rs:184-191): if the blockhash changed, update it; otherwise
push a `recent-blockhash` failure. -/
def hashCheck (info : ClusterInfo) (st : MonitorState) :
    List CheckFailure × Nat :=
  if info.recent_blockhash ≠ st.last_recent_blockhash then
    ([], info.recent_blockhash)
  else
    ([("recent-blockhash", hashFailMessage info)], st.last_recent_blockhash)

/-- Message of the current-stake failure (main.rs:196). -/
def stakeFailMessage (percent : Nat) : String :=
  "Current stake is " ++ toString percent ++ "%"

/-- Check 3 (main.rs:193-198): with `--monitor-active-stake`, push a
`current-stake` failure when the percent is strictly below the hardcoded
threshold 80. -/
def stakeCheck (cfg : Config) (percent : Nat) : List CheckFailure :=
  if cfg.monitor_active_stake = true ∧ percent < 80 then
    [("current-stake", stakeFailMessage percent)]
  else []

/-- Classification of one watched identity (main.rs:210-222): `delinquent`
when present in the delinquent set, else `missing` when absent from the
current set, else healthy (no entry). -/
def classify (va : VoteAccountStatus) (id : String) : Option String :=
  if va.delinquent.any (fun vai => vai.node_pubkey == id) then
    some (id ++ " delinquent")
  else if !(va.current.any (fun vai => vai.node_pubkey == id)) then
    some (id ++ " missing")
  else none

/-- The balance lookup against a given pubkey (main.rs:224-237): on success,
push a `balance` failure when the balance is below 1 SOL; on error, only a
warning is logged and no failure is produced. -/
def balanceCheckAt (env : RpcEnv) (pk : Pubkey) (id : String) :
    Option CheckFailure :=
  match env.get_balance pk with
  | .ok lamports =>
      if lamports < lamportsPerSol then
        some ("balance", id ++ " has " ++ solDisplay lamports ++ " SOL")
      else none
  | .error _ => none

/-- The balance lookup of one watched identity:
`Pubkey::from_str(&validator_identity).unwrap_or_default()` (main.rs:225)
falls back to the all-zeros pubkey when parsing fails. -/
def balanceFailure (env : RpcEnv) (id : String) : Option CheckFailure :=
  balanceCheckAt env ((env.parsePubkey id).getD Pubkey.defaultKey) id

/-- Check 4 (main.rs:200-243).  With no watched identities: one `delinquent`
failure when the delinquent set is non-empty.  Otherwise, the loop over the
watched identities accumulates classification entries in `errors` and pushes
`balance` failures directly onto `failures`; after the loop, a single
aggregated `delinquent` failure is pushed when `errors` is non-empty — so the
`balance` entries precede the aggregated `delinquent` entry. -/
def check4 (env : RpcEnv) (va : VoteAccountStatus) (ids : List String) :
    List CheckFailure :=
  if ids = [] then
    if va.delinquent = [] then []
    else [("delinquent", toString va.delinquent.length ++ " delinquent validators")]
  else
    ids.filterMap (balanceFailure env) ++
      (if ids.filterMap (classify va) = [] then []
       else [("delinquent", String.intercalate "," (ids.filterMap (classify va)))])

/-- One evaluation of a successfully fetched snapshot (main.rs:151-248):
returns the ordered failure list and the new `last_transaction_count` and
`last_recent_blockhash`.  Returns `none` when the total stake is zero: the
source divides by `total_stake` unconditionally (main.rs:163, before any
check and regardless of `monitor_active_stake`), and `u64` division by zero
aborts the process. -/
def evaluate (env : RpcEnv) (info : ClusterInfo) (cfg : Config)
    (st : MonitorState) : Option (List CheckFailure × Nat × Nat) :=
  if totalStake info.vote_accounts = 0 then none
  else
    some ((txCheck info st).1 ++ (hashCheck info st).1 ++
            stakeCheck cfg (currentStakePercent info.vote_accounts) ++
            check4 env info.vote_accounts cfg.validator_identity_pubkeys,
          (txCheck info st).2, (hashCheck info st).2)

/-- The notification message built from a failure (main.rs:255-258). -/
def failureNotification (f : CheckFailure) : String :=
  "solana-watchtower: Error: " ++ f.1 ++ ": " ++ f.2

/-- The fixed all-clear notification (main.rs:271). -/
def allClearMessage : String := "solana-watchtower: All clear"

/-- The notify/dedup step (main.rs:254-274): given the selected failure (if
any) and the previous `last_notification_msg`, returns the notification sent
(if any) and the new `last_notification_msg`. -/
def reconcile (cfg : Config) (failure : Option CheckFailure) (last : String) :
    Option String × String :=
  match failure with
  | some f =>
      let msg := failureNotification f
      (if cfg.no_duplicate_notifications = false ∨ last ≠ msg then some msg
       else none,
       msg)
  | none =>
      (if last ≠ "" then some allClearMessage else none, "")

/-- The observable outcome of one loop iteration: the failure selected and
passed downstream, the notification sent (if any), and the state carried to
the next cycle. -/
structure CycleResult where
  failure : Option CheckFailure
  notified : Option String
  state : MonitorState
deriving DecidableEq, Repr

/-- One iteration of the monitor loop (main.rs:140-275), given the outcome of
`get_cluster_info`.  On transport error the single synthetic `rpc` failure is
used and the counters are untouched; otherwise the evaluator runs and only
the first failure is reported.  `none` models the division-by-zero abort. -/
def cycle (env : RpcEnv) (fetch : Except String ClusterInfo) (cfg : Config)
    (st : MonitorState) : Option CycleResult :=
  match fetch with
  | .error err =>
      let failure : Option CheckFailure := some ("rpc", err)
      let rec' := reconcile cfg failure st.last_notification_msg
      some ⟨failure, rec'.1,
        { st with last_notification_msg := rec'.2 }⟩
  | .ok info =>
      match evaluate env info cfg st with
      | none => none
      | some (fs, newTx, newHash) =>
          let failure := fs.head?
          let rec' := reconcile cfg failure st.last_notification_msg
          some ⟨failure, rec'.1, ⟨newTx, newHash, rec'.2⟩⟩

/-! ### Concrete sample inputs used by counterexamples and witnesses -/

/-- Environment used for the C2 input: every identity parses to the same key
and every balance lookup returns zero lamports. -/
def c2Env : RpcEnv := ⟨fun _ => some ⟨1⟩, fun _ => Except.ok 0⟩

/-- Snapshot for C2: the single watched identity `A` is delinquent. -/
def c2Info : ClusterInfo := ⟨1, 1, ⟨[], [⟨"A", 5⟩]⟩⟩

/-- Configuration for C2: watch identity `A` only. -/
def c2Cfg : Config := ⟨["A"], false, false⟩

/-- Stake snapshot at exactly 79 percent (79 current, 21 delinquent). -/
def c5Info79 : ClusterInfo := ⟨1, 1, ⟨[⟨"c", 79⟩], [⟨"d", 21⟩]⟩⟩

/-- Stake snapshot at exactly 80 percent (4 current, 1 delinquent). -/
def c5Info80 : ClusterInfo := ⟨1, 1, ⟨[⟨"c", 4⟩], [⟨"d", 1⟩]⟩⟩

/-- Configuration with stake monitoring enabled and no watched identities. -/
def c5Cfg : Config := ⟨[], true, true⟩

/-- A benign environment: identities do not parse, balances are healthy. -/
def benignEnv : RpcEnv := ⟨fun _ => none, fun _ => Except.ok lamportsPerSol⟩

/-- Configuration for the C3 witness: dedup enabled, no watched identities. -/
def c3Cfg : Config := ⟨[], true, false⟩

/-- The notification message built for the C3 witness's `rpc` failure. -/
def c3Msg : String := "solana-watchtower: Error: rpc: boom"

/-- The cycle result of the C3 witness's first failing cycle. -/
def c3R : CycleResult := ⟨some ("rpc", "boom"), some c3Msg, ⟨0, 0, c3Msg⟩⟩

/-- Healthy snapshot for the C4 witness: counts advance, hash rotates, no
delinquency. -/
def c4Info : ClusterInfo := ⟨1, 1, ⟨[⟨"c", 1⟩], []⟩⟩

/-- Configuration for the C4 witness. -/
def c4Cfg : Config := ⟨[], false, false⟩

/-- The cycle result of the C4 witness's clean cycle after an alert. -/
def c4R : CycleResult := ⟨none, some allClearMessage, ⟨1, 1, ""⟩⟩

/-- Environment for the C8 witness: identity `B` parses to a key whose
balance lookup errors; every other lookup succeeds with zero lamports. -/
def c8Env : RpcEnv :=
  ⟨fun s => if s = "B" then some ⟨2⟩ else some ⟨1⟩,
   fun pk => if pk = ⟨2⟩ then Except.error "boom" else Except.ok 0⟩

/-- Vote accounts for the C8 witness: only `A` is current. -/
def c8Va : VoteAccountStatus := ⟨[⟨"A", 1⟩], []⟩

/-- Environment for the C10 witness: nothing parses and every balance
lookup reports zero lamports. -/
def c10Env : RpcEnv := ⟨fun _ => none, fun _ => Except.ok 0⟩

/-! ### Structural lemmas about the evaluator -/

/-- Unfolding of a successful evaluation into its four check segments. -/
theorem evaluate_eq_some (env : RpcEnv) (info : ClusterInfo) (cfg : Config)
    (st : MonitorState) (fs : List CheckFailure) (ntx nh : Nat)
    (h : evaluate env info cfg st = some (fs, ntx, nh)) :
    fs = (txCheck info st).1 ++ (hashCheck info st).1 ++
      stakeCheck cfg (currentStakePercent info.vote_accounts) ++
      check4 env info.vote_accounts cfg.validator_identity_pubkeys ∧
    ntx = (txCheck info st).2 ∧ nh = (hashCheck info st).2 := by
  unfold evaluate at h
  split at h
  · cases h
  · simp only [Option.some.injEq, Prod.mk.injEq] at h
    exact ⟨h.1.symm, h.2.1.symm, h.2.2.symm⟩

/-- The failures of check 1 are at most one, tagged `transaction-count`. -/
theorem txCheck_fst_kinds (info : ClusterInfo) (st : MonitorState) :
    (txCheck info st).1.length ≤ 1 ∧
      ∀ x ∈ (txCheck info st).1, x.1 = "transaction-count" := by
  unfold txCheck
  split <;> simp

/-- The failures of check 2 are at most one, tagged `recent-blockhash`. -/
theorem hashCheck_fst_kinds (info : ClusterInfo) (st : MonitorState) :
    (hashCheck info st).1.length ≤ 1 ∧
      ∀ x ∈ (hashCheck info st).1, x.1 = "recent-blockhash" := by
  unfold hashCheck
  split <;> simp

/-- The failures of check 3 are at most one, tagged `current-stake`. -/
theorem stakeCheck_kinds (cfg : Config) (p : Nat) :
    (stakeCheck cfg p).length ≤ 1 ∧ ∀ x ∈ stakeCheck cfg p, x.1 = "current-stake" := by
  unfold stakeCheck
  split <;> simp

/-- A failure produced by the balance lookup is tagged `balance`. -/
theorem balanceCheckAt_kind (env : RpcEnv) (pk : Pubkey) (id : String)
    (x : CheckFailure) (h : balanceCheckAt env pk id = some x) :
    x.1 = "balance" := by
  unfold balanceCheckAt at h
  split at h
  · rename_i l heq
    by_cases hl : l < lamportsPerSol
    · rw [if_pos hl] at h
      simp only [Option.some.injEq] at h
      rw [← h]
    · rw [if_neg hl] at h
      cases h
  · cases h

/-- Every member of the balance-failure segment is tagged `balance`. -/
theorem mem_balance_filterMap (env : RpcEnv) (ids : List String)
    (x : CheckFailure) (h : x ∈ ids.filterMap (balanceFailure env)) :
    x.1 = "balance" := by
  obtain ⟨a, -, ha⟩ := List.mem_filterMap.mp h
  exact balanceCheckAt_kind env _ a x ha

/-- Check 4 is the balance-failure segment followed by at most one
aggregated `delinquent` failure. -/
theorem check4_structure (env : RpcEnv) (va : VoteAccountStatus)
    (ids : List String) :
    ∃ del : List CheckFailure,
      check4 env va ids = ids.filterMap (balanceFailure env) ++ del ∧
      del.length ≤ 1 ∧ ∀ x ∈ del, x.1 = "delinquent" := by
  unfold check4
  split
  · rename_i hids
    subst hids
    split
    · exact ⟨[], by simp⟩
    · exact ⟨[("delinquent",
        toString va.delinquent.length ++ " delinquent validators")], by simp⟩
  · split
    · exact ⟨[], by simp⟩
    · exact ⟨[("delinquent",
        String.intercalate "," (ids.filterMap (classify va)))], by simp⟩

/-- Every member of check 4 is tagged `balance` or `delinquent`. -/
theorem mem_check4_kind (env : RpcEnv) (va : VoteAccountStatus)
    (ids : List String) (x : CheckFailure) (h : x ∈ check4 env va ids) :
    x.1 = "balance" ∨ x.1 = "delinquent" := by
  obtain ⟨del, hq, -, hk⟩ := check4_structure env va ids
  rw [hq] at h
  rcases List.mem_append.mp h with hb | hd
  · exact Or.inl (mem_balance_filterMap _ _ _ hb)
  · exact Or.inr (hk _ hd)

/-! ### Structural lemmas about reconciliation and the cycle -/

/-- Unfolding of `reconcile` on a failing cycle. -/
theorem reconcile_some_eq (cfg : Config) (f : CheckFailure) (last : String) :
    reconcile cfg (some f) last =
      (if cfg.no_duplicate_notifications = false ∨ last ≠ failureNotification f
       then some (failureNotification f) else none,
       failureNotification f) := rfl

/-- Unfolding of `reconcile` on a clean cycle. -/
theorem reconcile_none_eq (cfg : Config) (last : String) :
    reconcile cfg none last =
      (if last ≠ "" then some allClearMessage else none, "") := rfl

/-- A completed cycle notifies and stores exactly what `reconcile` says for
the failure it selected. -/
theorem cycle_reconcile (env : RpcEnv) (fetch : Except String ClusterInfo)
    (cfg : Config) (st : MonitorState) (r : CycleResult)
    (h : cycle env fetch cfg st = some r) :
    r.notified = (reconcile cfg r.failure st.last_notification_msg).1 ∧
    r.state.last_notification_msg =
      (reconcile cfg r.failure st.last_notification_msg).2 := by
  cases fetch with
  | error err =>
      simp only [cycle] at h
      cases h
      exact ⟨rfl, rfl⟩
  | ok info =>
      simp only [cycle] at h
      cases he : evaluate env info cfg st with
      | none => rw [he] at h; cases h
      | some v =>
          obtain ⟨fs, ntx, nh⟩ := v
          rw [he] at h
          cases h
          exact ⟨rfl, rfl⟩

/-! ### Claims -/

/-- C1: the claim states that a snapshot with zero total stake completes one
evaluation cycle with the stake-health check skipped, regardless of
`monitor_active_stake`.  The source instead computes
`total_current_stake * 100 / total_stake` unconditionally (main.rs:163), and
`u64` division by zero aborts: at a snapshot with no current and no
delinquent validators the evaluation aborts (modelled by `none`) for every
configuration and every RPC environment. -/
theorem C1_zero_total_stake_aborts :
    ∀ (env : RpcEnv) (cfg : Config) (st : MonitorState),
      evaluate env ⟨5, 7, ⟨[], []⟩⟩ cfg st = none ∧
      cycle env (Except.ok ⟨5, 7, ⟨[], []⟩⟩) cfg st = none :=
  fun _ _ _ => ⟨rfl, rfl⟩

/-- C7: a transport error on the snapshot fetch yields exactly one failure,
of kind `rpc`, carrying the error text; the counters
`last_transaction_count` and `last_recent_blockhash` are unchanged; and the
health checks are not run — the cycle result is the same under every RPC
environment. -/
theorem C7_rpc_failure_frame (env env2 : RpcEnv) (cfg : Config)
    (st : MonitorState) (err : String) :
    ∃ r : CycleResult,
      cycle env (Except.error err) cfg st = some r ∧
      r.failure = some ("rpc", err) ∧
      r.state.last_transaction_count = st.last_transaction_count ∧
      r.state.last_recent_blockhash = st.last_recent_blockhash ∧
      cycle env2 (Except.error err) cfg st = some r :=
  ⟨_, rfl, rfl, rfl, rfl, rfl⟩

/-- C2 (counterexample): with one watched identity that is both delinquent
and low-balance, the evaluator emits the `balance` entry BEFORE the
aggregated `delinquent` entry — the source pushes balance failures inside
the per-identity loop (main.rs:229) and the aggregated delinquent failure
only after the loop (main.rs:241).  The claim places the aggregated
delinquent failure first, with balance entries after it, which is the
reversed order. -/
theorem C2_counterexample :
    evaluate c2Env c2Info c2Cfg ⟨0, 0, ""⟩ =
      some ([("balance", "A has 0 SOL"), ("delinquent", "A delinquent")],
        1, 1) ∧
    evaluate c2Env c2Info c2Cfg ⟨0, 0, ""⟩ ≠
      some ([("delinquent", "A delinquent"), ("balance", "A has 0 SOL")],
        1, 1) :=
  ⟨rfl, by decide⟩

/-- C2 (amended): the failure sequence of a completed evaluation is the
fixed check order — at most one `transaction-count` failure, then at most
one `recent-blockhash`, then at most one `current-stake`, then check 4's
entries, where within check 4 each low-balance identity appends a separate
`balance` entry (one per watched identity, in configuration order) and the
single aggregated `delinquent` failure is emitted AFTER all balance
entries; entries of different checks are never interleaved. -/
theorem C2_failure_order (env : RpcEnv) (info : ClusterInfo) (cfg : Config)
    (st : MonitorState) (fs : List CheckFailure) (ntx nh : Nat)
    (h : evaluate env info cfg st = some (fs, ntx, nh)) :
    ∃ f1 f2 f3 del : List CheckFailure,
      fs = f1 ++ f2 ++ f3 ++
        (cfg.validator_identity_pubkeys.filterMap (balanceFailure env) ++
          del) ∧
      f1.length ≤ 1 ∧ (∀ x ∈ f1, x.1 = "transaction-count") ∧
      f2.length ≤ 1 ∧ (∀ x ∈ f2, x.1 = "recent-blockhash") ∧
      f3.length ≤ 1 ∧ (∀ x ∈ f3, x.1 = "current-stake") ∧
      (∀ x ∈ cfg.validator_identity_pubkeys.filterMap (balanceFailure env),
        x.1 = "balance") ∧
      del.length ≤ 1 ∧ (∀ x ∈ del, x.1 = "delinquent") := by
  obtain ⟨hfs, -, -⟩ := evaluate_eq_some env info cfg st fs ntx nh h
  obtain ⟨del, hq, hdl, hdk⟩ := check4_structure env info.vote_accounts
    cfg.validator_identity_pubkeys
  refine ⟨(txCheck info st).1, (hashCheck info st).1,
    stakeCheck cfg (currentStakePercent info.vote_accounts), del, ?_,
    (txCheck_fst_kinds info st).1, (txCheck_fst_kinds info st).2,
    (hashCheck_fst_kinds info st).1, (hashCheck_fst_kinds info st).2,
    (stakeCheck_kinds cfg _).1, (stakeCheck_kinds cfg _).2,
    fun x hx => mem_balance_filterMap env _ x hx, hdl, hdk⟩
  rw [hfs, hq]

/-- Witness for `C2_failure_order` at the counterexample input. -/
theorem C2_failure_order_witness :
    (evaluate c2Env c2Info c2Cfg ⟨0, 0, ""⟩ =
      some ([("balance", "A has 0 SOL"), ("delinquent", "A delinquent")],
        1, 1)) ∧
    (∃ f1 f2 f3 del : List CheckFailure,
      [("balance", "A has 0 SOL"), ("delinquent", "A delinquent")] =
        f1 ++ f2 ++ f3 ++
          (c2Cfg.validator_identity_pubkeys.filterMap (balanceFailure c2Env)
            ++ del) ∧
      f1.length ≤ 1 ∧ (∀ x ∈ f1, x.1 = "transaction-count") ∧
      f2.length ≤ 1 ∧ (∀ x ∈ f2, x.1 = "recent-blockhash") ∧
      f3.length ≤ 1 ∧ (∀ x ∈ f3, x.1 = "current-stake") ∧
      (∀ x ∈ c2Cfg.validator_identity_pubkeys.filterMap
          (balanceFailure c2Env), x.1 = "balance") ∧
      del.length ≤ 1 ∧ (∀ x ∈ del, x.1 = "delinquent")) :=
  ⟨rfl, C2_failure_order c2Env c2Info c2Cfg ⟨0, 0, ""⟩
    [("balance", "A has 0 SOL"), ("delinquent", "A delinquent")] 1 1 rfl⟩

/-- C5 (counterexample): the original claim ties the stake-health check to
the mathematical `floor(current_stake * 100 / total_stake)`.  At a current
stake of `2*10^17` lamports (a valid `u64` amount, below mainnet's total
activated stake) and no delinquent stake, that mathematical percent is 100,
not below 80, so the claim says the check passes — but the `u64` product
`total_current_stake * 100` wraps modulo `2^64` (main.rs:163) and the
program computes 7 percent and emits the `current-stake` failure. -/
theorem C5_counterexample :
    evaluate benignEnv ⟨1, 1, ⟨[⟨"c", 200000000000000000⟩], []⟩⟩
        ⟨[], false, true⟩ ⟨0, 0, ""⟩ =
      some ([("current-stake", "Current stake is 7%")], 1, 1) ∧
    200000000000000000 * 100 / 200000000000000000 = 100 ∧
    ¬(200000000000000000 * 100 / 200000000000000000 < 80) :=
  ⟨rfl, by norm_num, by norm_num⟩

/-- C5 (amended): with `--monitor-active-stake` enabled and an evaluation
that completes (nonzero total stake), the `current-stake` failure is
present iff the percent the program computes — the wrapping `u64` product
`current_stake * 100 % 2^64` followed by truncating integer division by the
total stake — is strictly below the hardcoded threshold 80; in particular a
computed percent of exactly 80 passes and 79 fails. -/
theorem C5_stake_threshold (env : RpcEnv) (info : ClusterInfo) (cfg : Config)
    (st : MonitorState) (fs : List CheckFailure) (ntx nh : Nat)
    (hm : cfg.monitor_active_stake = true)
    (h : evaluate env info cfg st = some (fs, ntx, nh)) :
    (∃ m, ("current-stake", m) ∈ fs) ↔
      currentStakePercent info.vote_accounts < 80 := by
  obtain ⟨hfs, -, -⟩ := evaluate_eq_some env info cfg st fs ntx nh h
  constructor
  · rintro ⟨m, hmem⟩
    rw [hfs] at hmem
    rcases List.mem_append.mp hmem with h123 | h4
    · rcases List.mem_append.mp h123 with h12 | h3
      · rcases List.mem_append.mp h12 with h1 | h2
        · have hk := (txCheck_fst_kinds info st).2 _ h1
          exact absurd (show ("current-stake" : String) = "transaction-count"
            from hk) (by decide)
        · have hk := (hashCheck_fst_kinds info st).2 _ h2
          exact absurd (show ("current-stake" : String) = "recent-blockhash"
            from hk) (by decide)
      · unfold stakeCheck at h3
        split at h3
        · rename_i hc
          exact hc.2
        · exact absurd h3 (List.not_mem_nil _)
    · rcases mem_check4_kind env _ _ _ h4 with hk | hk
      · exact absurd (show ("current-stake" : String) = "balance" from hk)
          (by decide)
      · exact absurd (show ("current-stake" : String) = "delinquent" from hk)
          (by decide)
  · intro hp
    rw [hfs]
    refine ⟨stakeFailMessage (currentStakePercent info.vote_accounts), ?_⟩
    refine List.mem_append.mpr (Or.inl ?_)
    refine List.mem_append.mpr (Or.inr ?_)
    unfold stakeCheck
    rw [if_pos ⟨hm, hp⟩]
    exact List.mem_singleton.mpr rfl

/-- Witness for `C5_stake_threshold`: at 79 percent the failure is present,
at exactly 80 percent it is absent. -/
theorem C5_stake_threshold_witness :
    (c5Cfg.monitor_active_stake = true) ∧
    (evaluate benignEnv c5Info79 c5Cfg ⟨0, 0, ""⟩ =
      some ([("current-stake", "Current stake is 79%"),
             ("delinquent", "1 delinquent validators")], 1, 1)) ∧
    ((∃ m, ("current-stake", m) ∈
        [(("current-stake" : String), "Current stake is 79%"),
         ("delinquent", "1 delinquent validators")]) ↔
      currentStakePercent c5Info79.vote_accounts < 80) ∧
    (evaluate benignEnv c5Info80 c5Cfg ⟨0, 0, ""⟩ =
      some ([("delinquent", "1 delinquent validators")], 1, 1)) ∧
    ((∃ m, ("current-stake", m) ∈
        [(("delinquent" : String), "1 delinquent validators")]) ↔
      currentStakePercent c5Info80.vote_accounts < 80) :=
  ⟨rfl, rfl,
   C5_stake_threshold benignEnv c5Info79 c5Cfg ⟨0, 0, ""⟩
     [("current-stake", "Current stake is 79%"),
      ("delinquent", "1 delinquent validators")] 1 1 rfl rfl,
   rfl,
   C5_stake_threshold benignEnv c5Info80 c5Cfg ⟨0, 0, ""⟩
     [("delinquent", "1 delinquent validators")] 1 1 rfl rfl⟩

/-- C6: in a completed evaluation the `transaction-count` failure is present
iff the snapshot's count did not strictly increase; on a strict increase
the stored ratchet advances to the new value, otherwise it is unchanged,
and it never decreases. -/
theorem C6_tx_ratchet (env : RpcEnv) (info : ClusterInfo) (cfg : Config)
    (st : MonitorState) (fs : List CheckFailure) (ntx nh : Nat)
    (h : evaluate env info cfg st = some (fs, ntx, nh)) :
    ((∃ m, ("transaction-count", m) ∈ fs) ↔
      info.transaction_count ≤ st.last_transaction_count) ∧
    (st.last_transaction_count < info.transaction_count →
      ntx = info.transaction_count) ∧
    (info.transaction_count ≤ st.last_transaction_count →
      ntx = st.last_transaction_count) ∧
    st.last_transaction_count ≤ ntx := by
  obtain ⟨hfs, hntx, -⟩ := evaluate_eq_some env info cfg st fs ntx nh h
  refine ⟨⟨?_, ?_⟩, ?_, ?_, ?_⟩
  · rintro ⟨m, hmem⟩
    rw [hfs] at hmem
    rcases List.mem_append.mp hmem with h123 | h4
    · rcases List.mem_append.mp h123 with h12 | h3
      · rcases List.mem_append.mp h12 with h1 | h2
        · unfold txCheck at h1
          split at h1
          · exact absurd h1 (List.not_mem_nil _)
          · rename_i hc
            exact Nat.not_lt.mp hc
        · have hk := (hashCheck_fst_kinds info st).2 _ h2
          exact absurd (show ("transaction-count" : String) =
            "recent-blockhash" from hk) (by decide)
      · have hk := (stakeCheck_kinds cfg _).2 _ h3
        exact absurd (show ("transaction-count" : String) = "current-stake"
          from hk) (by decide)
    · rcases mem_check4_kind env _ _ _ h4 with hk | hk
      · exact absurd (show ("transaction-count" : String) = "balance"
          from hk) (by decide)
      · exact absurd (show ("transaction-count" : String) = "delinquent"
          from hk) (by decide)
  · intro hle
    rw [hfs]
    refine ⟨txFailMessage info st, ?_⟩
    refine List.mem_append.mpr (Or.inl ?_)
    refine List.mem_append.mpr (Or.inl ?_)
    refine List.mem_append.mpr (Or.inl ?_)
    unfold txCheck
    rw [if_neg (Nat.not_lt.mpr hle)]
    exact List.mem_singleton.mpr rfl
  · intro hlt
    rw [hntx]
    unfold txCheck
    rw [if_pos hlt]
  · intro hle
    rw [hntx]
    unfold txCheck
    rw [if_neg (Nat.not_lt.mpr hle)]
  · rw [hntx]
    unfold txCheck
    split
    · rename_i hc
      exact Nat.le_of_lt hc
    · exact Nat.le_refl _

/-- Witness for `C6_tx_ratchet`: a snapshot whose count equals the stored
count fails the check and leaves the ratchet unchanged. -/
theorem C6_tx_ratchet_witness :
    (evaluate benignEnv ⟨5, 1, ⟨[⟨"c", 1⟩], []⟩⟩ ⟨[], false, false⟩
        ⟨5, 0, ""⟩ =
      some ([("transaction-count",
        "Transaction count is not advancing: 5 <= 5")], 5, 1)) ∧
    (((∃ m, ("transaction-count", m) ∈
        [(("transaction-count" : String),
          "Transaction count is not advancing: 5 <= 5")]) ↔
        (5 : Nat) ≤ 5) ∧
      ((5 : Nat) < 5 → (5 : Nat) = 5) ∧
      ((5 : Nat) ≤ 5 → (5 : Nat) = 5) ∧
      (5 : Nat) ≤ 5) :=
  ⟨rfl, C6_tx_ratchet benignEnv ⟨5, 1, ⟨[⟨"c", 1⟩], []⟩⟩ ⟨[], false, false⟩
    ⟨5, 0, ""⟩ [("transaction-count",
      "Transaction count is not advancing: 5 <= 5")] 5 1 rfl⟩

/-- C9: state updates are per-check, not per-cycle — in any completed
evaluation the new `last_transaction_count` depends only on the
transaction-count comparison and the new `last_recent_blockhash` only on
the blockhash comparison, regardless of which other checks failed in the
same cycle. -/
theorem C9_per_check_updates (env : RpcEnv) (info : ClusterInfo)
    (cfg : Config) (st : MonitorState) (fs : List CheckFailure)
    (ntx nh : Nat) (h : evaluate env info cfg st = some (fs, ntx, nh)) :
    (ntx = if st.last_transaction_count < info.transaction_count
      then info.transaction_count else st.last_transaction_count) ∧
    (nh = if info.recent_blockhash = st.last_recent_blockhash
      then st.last_recent_blockhash else info.recent_blockhash) := by
  obtain ⟨-, hntx, hnh⟩ := evaluate_eq_some env info cfg st fs ntx nh h
  constructor
  · rw [hntx]
    unfold txCheck
    by_cases hlt : st.last_transaction_count < info.transaction_count
    · rw [if_pos hlt, if_pos hlt]
    · rw [if_neg hlt, if_neg hlt]
  · rw [hnh]
    unfold hashCheck
    by_cases he : info.recent_blockhash = st.last_recent_blockhash
    · rw [if_neg (not_ne_iff.mpr he), if_pos he]
    · rw [if_pos he, if_neg he]

/-- Witness for `C9_per_check_updates`: the blockhash check fails while the
transaction ratchet still advances in the same cycle. -/
theorem C9_per_check_updates_witness :
    (evaluate benignEnv ⟨3, 7, ⟨[⟨"c", 1⟩], []⟩⟩ ⟨[], false, false⟩
        ⟨0, 7, ""⟩ =
      some ([("recent-blockhash", "Unable to get new blockhash: 7")],
        3, 7)) ∧
    (((3 : Nat) = if (0 : Nat) < 3 then 3 else 0) ∧
      ((7 : Nat) = if (7 : Nat) = 7 then 7 else 7)) :=
  ⟨rfl, C9_per_check_updates benignEnv ⟨3, 7, ⟨[⟨"c", 1⟩], []⟩⟩
    ⟨[], false, false⟩ ⟨0, 7, ""⟩
    [("recent-blockhash", "Unable to get new blockhash: 7")] 3 7 rfl⟩

/-- C3: in every cycle that selects a failure, a notification is sent iff
dedup is disabled or the built message differs from the stored
`last_notification_msg`; in either case the stored message becomes the new
message.  Hence, with dedup enabled, a consecutive cycle selecting the
identical failure does not notify again, and with dedup disabled it does. -/
theorem C3_dedup_notification (env : RpcEnv)
    (fetch : Except String ClusterInfo) (cfg : Config) (st : MonitorState)
    (r : CycleResult) (f : CheckFailure)
    (h : cycle env fetch cfg st = some r) (hf : r.failure = some f) :
    r.state.last_notification_msg = failureNotification f ∧
    (r.notified = some (failureNotification f) ↔
      (cfg.no_duplicate_notifications = false ∨
        st.last_notification_msg ≠ failureNotification f)) ∧
    (r.notified = none ↔
      (cfg.no_duplicate_notifications = true ∧
        st.last_notification_msg = failureNotification f)) ∧
    (∀ r2 : CycleResult, cycle env fetch cfg r.state = some r2 →
      r2.failure = some f →
      (cfg.no_duplicate_notifications = true → r2.notified = none) ∧
      (cfg.no_duplicate_notifications = false →
        r2.notified = some (failureNotification f))) := by
  obtain ⟨hn, hs⟩ := cycle_reconcile env fetch cfg st r h
  rw [hf, reconcile_some_eq] at hn hs
  have hmsg : r.state.last_notification_msg = failureNotification f := hs
  refine ⟨hmsg, ?_, ?_, ?_⟩
  · rw [hn]
    by_cases hc : cfg.no_duplicate_notifications = false ∨
        st.last_notification_msg ≠ failureNotification f
    · rw [if_pos hc]
      simp [hc]
    · rw [if_neg hc]
      simp [hc]
  · rw [hn]
    by_cases hc : cfg.no_duplicate_notifications = false ∨
        st.last_notification_msg ≠ failureNotification f
    · rw [if_pos hc]
      constructor
      · intro hx
        cases hx
      · rintro ⟨hd, he⟩
        rcases hc with hc | hc
        · rw [hd] at hc
          cases hc
        · exact absurd he hc
    · rw [if_neg hc]
      rcases not_or.mp hc with ⟨h1, h2⟩
      constructor
      · intro _
        refine ⟨?_, not_not.mp h2⟩
        cases hb : cfg.no_duplicate_notifications
        · exact absurd hb h1
        · rfl
      · intro _
        rfl
  · intro r2 h2 hf2
    obtain ⟨hn2, -⟩ := cycle_reconcile env fetch cfg r.state r2 h2
    rw [hf2, reconcile_some_eq, hmsg] at hn2
    constructor
    · intro htrue
      rw [hn2, if_neg (by simp [htrue])]
    · intro hfalse
      rw [hn2, if_pos (Or.inl hfalse)]

/-- Witness for `C3_dedup_notification`: a transport-error cycle notifies
once; with dedup enabled an identical consecutive failure stays silent. -/
theorem C3_dedup_notification_witness :
    (cycle benignEnv (Except.error "boom") c3Cfg ⟨0, 0, ""⟩ = some c3R) ∧
    (c3R.failure = some ("rpc", "boom")) ∧
    (c3R.state.last_notification_msg = failureNotification ("rpc", "boom") ∧
     (c3R.notified = some (failureNotification ("rpc", "boom")) ↔
       (c3Cfg.no_duplicate_notifications = false ∨
         (⟨0, 0, ""⟩ : MonitorState).last_notification_msg ≠
           failureNotification ("rpc", "boom"))) ∧
     (c3R.notified = none ↔
       (c3Cfg.no_duplicate_notifications = true ∧
         (⟨0, 0, ""⟩ : MonitorState).last_notification_msg =
           failureNotification ("rpc", "boom"))) ∧
     (∀ r2 : CycleResult,
       cycle benignEnv (Except.error "boom") c3Cfg c3R.state = some r2 →
       r2.failure = some ("rpc", "boom") →
       (c3Cfg.no_duplicate_notifications = true → r2.notified = none) ∧
       (c3Cfg.no_duplicate_notifications = false →
         r2.notified = some (failureNotification ("rpc", "boom"))))) :=
  ⟨rfl, rfl, C3_dedup_notification benignEnv (Except.error "boom") c3Cfg
    ⟨0, 0, ""⟩ c3R ("rpc", "boom") rfl rfl⟩

/-- C4: a clean cycle resets the stored message to empty; it notifies the
fixed "All clear" message iff the previous cycle was alerting (stored
message non-empty); and a clean cycle whose predecessor was clean never
notifies. -/
theorem C4_all_clear_transition (env : RpcEnv)
    (fetch : Except String ClusterInfo) (cfg : Config) (st : MonitorState)
    (r : CycleResult) (h : cycle env fetch cfg st = some r)
    (hf : r.failure = none) :
    r.state.last_notification_msg = "" ∧
    (st.last_notification_msg ≠ "" → r.notified = some allClearMessage) ∧
    (st.last_notification_msg = "" → r.notified = none) ∧
    (∀ r2 : CycleResult, cycle env fetch cfg r.state = some r2 →
      r2.failure = none → r2.notified = none) := by
  obtain ⟨hn, hs⟩ := cycle_reconcile env fetch cfg st r h
  rw [hf, reconcile_none_eq] at hn hs
  refine ⟨hs, ?_, ?_, ?_⟩
  · intro hne
    rw [hn, if_pos hne]
  · intro he
    rw [hn, if_neg (by simp [he])]
  · intro r2 h2 hf2
    obtain ⟨hn2, -⟩ := cycle_reconcile env fetch cfg r.state r2 h2
    rw [hf2, reconcile_none_eq, hs] at hn2
    rw [hn2, if_neg (by simp)]

/-- Witness for `C4_all_clear_transition`: a clean cycle after an alerting
one notifies "All clear" exactly once and resets the stored message. -/
theorem C4_all_clear_transition_witness :
    (cycle benignEnv (Except.ok c4Info) c4Cfg ⟨0, 0, "previous alert"⟩ =
      some c4R) ∧
    (c4R.failure = none) ∧
    (c4R.state.last_notification_msg = "" ∧
     ((⟨0, 0, "previous alert"⟩ : MonitorState).last_notification_msg ≠ "" →
       c4R.notified = some allClearMessage) ∧
     ((⟨0, 0, "previous alert"⟩ : MonitorState).last_notification_msg = "" →
       c4R.notified = none) ∧
     (∀ r2 : CycleResult,
       cycle benignEnv (Except.ok c4Info) c4Cfg c4R.state = some r2 →
       r2.failure = none → r2.notified = none)) :=
  ⟨rfl, rfl, C4_all_clear_transition benignEnv (Except.ok c4Info) c4Cfg
    ⟨0, 0, "previous alert"⟩ c4R rfl rfl⟩

/-- C8: a balance-lookup error for one watched identity produces no
`CheckFailure` at all, and leaves both the balance checks and the
classification of every other watched identity in the same cycle exactly
as they were — one identity's lookup error does not abort the rest. -/
theorem C8_balance_error_isolation (env : RpcEnv) (va : VoteAccountStatus)
    (ids1 ids2 : List String) (id e : String)
    (h : env.get_balance ((env.parsePubkey id).getD Pubkey.defaultKey) =
      Except.error e) :
    balanceFailure env id = none ∧
    (ids1 ++ id :: ids2).filterMap (balanceFailure env) =
      ids1.filterMap (balanceFailure env) ++
        ids2.filterMap (balanceFailure env) ∧
    check4 env va (ids1 ++ id :: ids2) =
      (ids1.filterMap (balanceFailure env) ++
        ids2.filterMap (balanceFailure env)) ++
      (if (ids1 ++ id :: ids2).filterMap (classify va) = [] then []
       else [("delinquent", String.intercalate ","
         ((ids1 ++ id :: ids2).filterMap (classify va)))]) := by
  have hbf : balanceFailure env id = none := by
    unfold balanceFailure balanceCheckAt
    rw [h]
  have hfm : (ids1 ++ id :: ids2).filterMap (balanceFailure env) =
      ids1.filterMap (balanceFailure env) ++
        ids2.filterMap (balanceFailure env) := by
    rw [List.filterMap_append, List.filterMap_cons_none hbf]
  refine ⟨hbf, hfm, ?_⟩
  have hne : ¬(ids1 ++ id :: ids2 = []) := by simp
  unfold check4
  rw [if_neg hne, hfm]

/-- Witness for `C8_balance_error_isolation`, watching `A`, `B`, `C` where
`B`'s balance lookup errors. -/
theorem C8_balance_error_isolation_witness :
    (c8Env.get_balance ((c8Env.parsePubkey "B").getD Pubkey.defaultKey) =
      Except.error "boom") ∧
    (balanceFailure c8Env "B" = none ∧
     (["A"] ++ "B" :: ["C"]).filterMap (balanceFailure c8Env) =
       ["A"].filterMap (balanceFailure c8Env) ++
         ["C"].filterMap (balanceFailure c8Env) ∧
     check4 c8Env c8Va (["A"] ++ "B" :: ["C"]) =
       (["A"].filterMap (balanceFailure c8Env) ++
         ["C"].filterMap (balanceFailure c8Env)) ++
       (if (["A"] ++ "B" :: ["C"]).filterMap (classify c8Va) = [] then []
        else [("delinquent", String.intercalate ","
          ((["A"] ++ "B" :: ["C"]).filterMap (classify c8Va)))])) :=
  ⟨rfl, C8_balance_error_isolation c8Env c8Va ["A"] ["C"] "B" "boom" rfl⟩

/-- C10: a watched identity string that does not parse as a pubkey never
aborts evaluation — its balance lookup is performed against the default
(all-zeros) pubkey, so it can still contribute a `balance` failure for the
default address. -/
theorem C10_unparseable_identity_defaults (env : RpcEnv) (id : String)
    (h : env.parsePubkey id = none) :
    balanceFailure env id = balanceCheckAt env Pubkey.defaultKey id := by
  unfold balanceFailure
  rw [h]
  rfl

/-- Witness for `C10_unparseable_identity_defaults`: the unparseable
identity's lookup hits the default pubkey and yields a `balance` failure. -/
theorem C10_unparseable_identity_defaults_witness :
    (c10Env.parsePubkey "not-a-pubkey" = none) ∧
    (balanceFailure c10Env "not-a-pubkey" =
      balanceCheckAt c10Env Pubkey.defaultKey "not-a-pubkey") ∧
    (balanceFailure c10Env "not-a-pubkey" =
      some ("balance", "not-a-pubkey has 0 SOL")) :=
  ⟨rfl, C10_unparseable_identity_defaults c10Env "not-a-pubkey" rfl, rfl⟩

end Watchtower
